import Mathlib

/-!
Shallow embedding of the scholarFlow research-agent workflow
(`src/backend/app/agents/{state,graph,planner,researcher,writer}.py` and
`src/backend/app/db/chroma.py`) together with theorems settling the
claims about its routing, step handlers and vector store.

External collaborators (LLM completion service, ArXiv search, PDF
download/parse, ChromaDB's ANN engine) are modelled as oracles: an
inductive describing the outcome a given call produced.  Everything the
repository's own code does with those outcomes is translated directly
from the Python source.
-/

namespace ScholarFlow

/-- A chat message, `\x7brole, content\x7d` dict in `state.py`. -/
structure Message where
  role : String
  content : String
deriving Repr, DecidableEq

/-- `DocumentInfo` from `state.py`: metadata of one processed paper.
`authors` is `Optional[List[str]]` in Python; every writer in the code
supplies a concrete list (`paper.get("authors", [])`), so it is a list. -/
structure DocumentInfo where
  title : String
  summary : String
  pdf_url : String
  arxiv_id : String
  authors : List String
deriving Repr, DecidableEq

/-- `ResearchState` from `state.py`.  `status` is the Python string
literal enum; `current_task_index` is a Python `int`, hence `Int`. -/
structure ResearchState where
  messages : List Message
  plan : List String
  documents : List DocumentInfo
  current_task_index : Int
  is_complete : Bool
  status : String
  logs : List String
  session_id : String
  original_query : String
  error : Option String
deriving Repr, DecidableEq

/-- `create_initial_state` from `state.py`. -/
def create_initial_state (session_id : String) (query : String) : ResearchState :=
  { messages := []
    plan := []
    documents := []
    current_task_index := 0
    is_complete := false
    status := "planning"
    logs := ["Starting research session for: " ++ query]
    session_id := session_id
    original_query := query
    error := none }

/-- A partial state update as returned by a LangGraph node: only the keys
present in the returned dict.  A `none` field means the key is absent. -/
structure StateUpdate where
  messages : Option (List Message) := none
  plan : Option (List String) := none
  documents : Option (List DocumentInfo) := none
  current_task_index : Option Int := none
  is_complete : Option Bool := none
  status : Option String := none
  logs : Option (List String) := none
  error : Option (Option String) := none
deriving Repr, DecidableEq

/-- LangGraph's merge of a node's partial update into the running state,
per the `Annotated` reducers in `state.py`: `messages`, `documents` and
`logs` concatenate (`operator.add`); every other present key replaces;
`session_id` and `original_query` are never returned by any node. -/
def applyUpdate (s : ResearchState) (u : StateUpdate) : ResearchState :=
  { messages := s.messages ++ u.messages.getD []
    plan := u.plan.getD s.plan
    documents := s.documents ++ u.documents.getD []
    current_task_index := u.current_task_index.getD s.current_task_index
    is_complete := u.is_complete.getD s.is_complete
    status := u.status.getD s.status
    logs := s.logs ++ u.logs.getD []
    session_id := s.session_id
    original_query := s.original_query
    error := u.error.getD s.error }

/-- `route_next_step` from `graph.py`.  `state.get("is_complete", False)`
is the boolean field, `not state.get("plan")` is Python falsiness of the
list (empty), `state.get("current_task_index", 0)` the int field. -/
def route_next_step (state : ResearchState) : String :=
  if state.is_complete then "end"
  else if state.status = "error" then "end"
  else if state.plan = [] then "planner"
  else if state.current_task_index < (state.plan.length : Int) then "researcher"
  else "writer"

/-! ### Plan step (`planner.py`) -/

/-- A JSON value as decoded by Python's `json.loads`.  Numeric literals
are kept textually: their value is never inspected by this codebase. -/
inductive Json where
  | null
  | bool (b : Bool)
  | num (lit : String)
  | str (s : String)
  | arr (items : List Json)
  | obj (fields : List (String × Json))
deriving Repr

mutual

/-- Python `str(item)` on a decoded JSON value, as applied by
`plan_research` to each plan element.  Rendering of nested containers is
approximated up to Python's quoting of inner strings; no code in the
repository inspects the rendered text. -/
def jsonStr : Json → String
  | .null => "None"
  | .bool true => "True"
  | .bool false => "False"
  | .num lit => lit
  | .str s => s
  | .arr items => "[" ++ jsonArrStr items ++ "]"
  | .obj fields => "\x7b" ++ jsonObjStr fields ++ "\x7d"

/-- Comma-separated rendering of a JSON array's items. -/
def jsonArrStr : List Json → String
  | [] => ""
  | [x] => jsonStr x
  | x :: y :: xs => jsonStr x ++ ", " ++ jsonArrStr (y :: xs)

/-- Comma-separated rendering of a JSON object's fields. -/
def jsonObjStr : List (String × Json) → String
  | [] => ""
  | [kv] => kv.1 ++ ": " ++ jsonStr kv.2
  | kv :: kv2 :: xs => kv.1 ++ ": " ++ jsonStr kv.2 ++ ", " ++ jsonObjStr (kv2 :: xs)

end

/-- Outcome of one call to the completion service (`llm/client.py`
collaborator): either it raised (with `str(e) = msg`) or returned text. -/
inductive CompletionResult where
  | raises (msg : String)
  | returns (response : String)

/-- The response cleaning in `plan_research`: strip, and if the result
starts with a markdown fence, drop every fence line and re-join. -/
def cleanResponse (response : String) : String :=
  let cleaned := response.trim
  if cleaned.startsWith "```" then
    String.intercalate "\n" ((cleaned.splitOn "\n").filter (fun line => !line.startsWith "```"))
  else cleaned

/-- The `except Exception` branch of `plan_research`: it receives both a
completion-call failure and the two validation `ValueError`s. -/
def plannerError (msg : String) : StateUpdate :=
  { status := some "error"
    error := some (some msg)
    logs := some ["Planning failed: " ++ msg] }

/-- `plan_research` from `planner.py`.  `jsonLoads` models Python's
`json.loads` on the cleaned response: `none` is a `JSONDecodeError`
(handled by the fallback branch), `some v` a successful decode (then
validated: must be a list with at least one item, items coerced by
`str`).  The validation `ValueError`s are caught by `except Exception`,
not by the `JSONDecodeError` fallback. -/
def plan_research (query : String) (completionResult : CompletionResult)
    (jsonLoads : String → Option Json) : StateUpdate :=
  match completionResult with
  | .raises msg => plannerError msg
  | .returns response =>
    match jsonLoads (cleanResponse response) with
    | none =>
        { plan := some [query]
          current_task_index := some 0
          status := some "researching"
          logs := some ["Could not parse plan, using original query: " ++ query] }
    | some (.arr items) =>
        if items.length < 1 then plannerError "Plan must have at least one question"
        else
          { plan := some (items.map jsonStr)
            current_task_index := some 0
            status := some "researching"
            logs := some ["Created research plan with " ++ toString items.length ++ " questions"] }
    | some _ => plannerError "Plan must be a list"

/-! ### Research step (`researcher.py`) -/

/-- A search hit from the ArXiv collaborator, as consumed by
`research_topic` (`title`, `pdf_url`, `arxiv_id`, `authors`). -/
structure Paper where
  title : String
  pdf_url : String
  arxiv_id : String
  authors : List String
deriving Repr, DecidableEq

/-- Outcome of the per-paper `try` block (download, parse, summarize,
vector upsert): a raised exception, or a generated summary. -/
inductive PaperOutcome where
  | fails (msg : String)
  | succeeds (summary : String)

/-- Outcome of the environment during one `research_topic` call: either
an exception escapes the whole pipeline (caught by the top-level
`except`), or the search returned a paper list, with `perPaper i` the
outcome of processing the `i`-th processed paper and `lightweight` the
`settings.LIGHTWEIGHT_MODE` flag. -/
inductive ResearchOutcome where
  | stepRaises (msg : String)
  | search (papers : List Paper) (perPaper : Nat → PaperOutcome) (lightweight : Bool)

/-- Python list indexing `l[i]`: nonnegative indices from the front,
negative indices from the back; out of range is an `IndexError`
(`none`). -/
def pyIndex (l : List α) (i : Int) : Option α :=
  let j := if i < 0 then (l.length : Int) + i else i
  if 0 ≤ j then l.get? j.toNat else none

/-- The per-paper loop of `research_topic` over `papers[:papers_to_process]`:
a paper whose processing fails is skipped; a processed paper appends a
`DocumentInfo` record carrying its summary. -/
def processPapers (papers : List Paper) (perPaper : Nat → PaperOutcome) :
    List DocumentInfo :=
  papers.enum.filterMap fun pair =>
    match perPaper pair.1 with
    | .fails _ => none
    | .succeeds summary =>
        some { title := pair.2.title
               summary := summary
               pdf_url := pair.2.pdf_url
               arxiv_id := pair.2.arxiv_id
               authors := pair.2.authors }

/-- `research_topic` from `researcher.py`.  The safety check
`current_idx >= len(plan)` short-circuits before anything else; then
`current_question = plan[current_idx]` runs OUTSIDE the `try`, so an
out-of-range (only possible: below `-len(plan)`) index raises an
uncaught `IndexError` (`Except.error`).  The `try` body and its
top-level `except` are driven by `outcome`. -/
def research_topic (state : ResearchState) (outcome : ResearchOutcome) :
    Except String StateUpdate :=
  let current_idx := state.current_task_index
  let plan := state.plan
  if (plan.length : Int) ≤ current_idx then
    Except.ok
      { status := some "writing"
        logs := some ["All research questions completed, preparing final report"] }
  else
    match pyIndex plan current_idx with
    | none => Except.error "list index out of range"
    | some _current_question =>
      match outcome with
      | .stepRaises msg =>
        let next_idx := current_idx + 1
        Except.ok
          { current_task_index := some next_idx
            status := some (if (plan.length : Int) ≤ next_idx then "writing" else "researching")
            logs := some ["Error researching question: " ++ msg ++ ". Skipping to next."] }
      | .search papers perPaper lightweight =>
        if papers = [] then
          Except.ok
            { current_task_index := some (current_idx + 1)
              status :=
                some (if current_idx + 1 < (plan.length : Int) then "researching" else "writing")
              logs := some ["No papers found, moving to next question"] }
        else
          let papers_to_process : Nat := if lightweight then 1 else 2
          let new_documents := processPapers (papers.take papers_to_process) perPaper
          let next_idx := current_idx + 1
          Except.ok
            { documents := some new_documents
              current_task_index := some next_idx
              status := some (if (plan.length : Int) ≤ next_idx then "writing" else "researching")
              logs := some ["Question researched"] }

/-! ### Write step (`writer.py`) -/

/-- One paper's section of the fallback report built in the `except`
branch of `write_report`. -/
def fallbackEntry (doc : DocumentInfo) : String :=
  "### [" ++ doc.title ++ "](" ++ doc.pdf_url ++ ")\n\n" ++ doc.summary ++ "\n\n---\n\n"

/-- The fixed opening of the fallback report. -/
def fallbackHeader (query : String) : String :=
  "# Research Report: " ++ query ++
    "\n\n## Summary\n\nAn error occurred while generating the full report. " ++
    "Here are the paper summaries we found:\n\n"

/-- The `for doc in documents` accumulation: the entries appended in
order. -/
def fallbackBody : List DocumentInfo → String
  | [] => ""
  | doc :: rest => fallbackEntry doc ++ fallbackBody rest

/-- The whole fallback report: header then one entry per accumulated
document, appended in order. -/
def fallback_report (query : String) (documents : List DocumentInfo) : String :=
  fallbackHeader query ++ fallbackBody documents

/-- `write_report` from `writer.py`.  Context retrieval and prompt
assembly feed only the synthesis completion call, whose outcome
`synthesis` abstracts; the vector-store query returns `[]` instead of
raising, so the only exception source in the `try` is that call. -/
def write_report (state : ResearchState) (synthesis : CompletionResult) : StateUpdate :=
  match synthesis with
  | .returns report =>
      { messages := some [{ role := "assistant", content := report }]
        is_complete := some true
        status := some "completed"
        logs := some ["Research report completed"] }
  | .raises msg =>
    let error_message := "Failed to generate report: " ++ msg
    if state.documents ≠ [] then
      { messages := some [{ role := "assistant",
                            content := fallback_report state.original_query state.documents }]
        is_complete := some true
        status := some "completed"
        error := some (some error_message)
        logs := some ["Used fallback report due to error: " ++ msg] }
    else
      { is_complete := some true
        status := some "error"
        error := some (some error_message)
        logs := some ["Report generation failed: " ++ msg] }

/-! ### Reachable states of the workflow -/

/-- States of the LangGraph workflow: the initial state of a session,
closed under merging the partial update of any step invocation under any
environment outcome.  A Research-step invocation that raises produces no
update (LangGraph aborts), so only `Except.ok` results step. -/
inductive Reachable : ResearchState → Prop where
  | init (session_id query : String) : Reachable (create_initial_state session_id query)
  | stepPlan (s : ResearchState) (cr : CompletionResult) (jsonLoads : String → Option Json) :
      Reachable s → Reachable (applyUpdate s (plan_research s.original_query cr jsonLoads))
  | stepResearch (s : ResearchState) (o : ResearchOutcome) (u : StateUpdate) :
      Reachable s → research_topic s o = Except.ok u → Reachable (applyUpdate s u)
  | stepWrite (s : ResearchState) (synthesis : CompletionResult) :
      Reachable s → Reachable (applyUpdate s (write_report s synthesis))

/-! ### Vector store (`db/chroma.py`) -/

/-- Per-chunk metadata attached by `VectorStore.add_documents`. -/
structure ChunkMeta where
  source_url : String
  title : String
  doc_id : String
  chunk_index : Nat
deriving Repr, DecidableEq

/-- One stored chunk of the ChromaDB collection: its id, text and
metadata. -/
structure Entry where
  id : String
  text : String
  meta : ChunkMeta
deriving Repr, DecidableEq

/-- The collection's contents, in insertion order. -/
abbrev Collection := List Entry

/-- The `metadata` dict handed to `add_documents` by the researcher
(`source_url`, `title`; `arxiv_id` travels separately as `doc_id`). -/
structure DocMeta where
  source_url : String
  title : String
deriving Repr, DecidableEq

/-- Chunk id generation: `f"\x7bdoc_id\x7d_chunk_\x7bi\x7d"`. -/
def chunkId (doc_id : String) (i : Nat) : String :=
  doc_id ++ "_chunk_" ++ toString i

/-- `VectorStore.add_documents` from `chroma.py`: empty chunk lists are
rejected with 0; if the collection already holds `ids[:1]` (the chunk-0
id of this `doc_id`) the call is a duplicate-skipping no-op returning 0;
otherwise all chunks are added with their metadata and the count is
returned. -/
def VectorStore.add_documents (col : Collection) (chunks : List String)
    (metadata : DocMeta) (doc_id : String) : Collection × Nat :=
  if chunks = [] then (col, 0)
  else if col.any (fun e => e.id = chunkId doc_id 0) then (col, 0)
  else
    let newEntries := chunks.enum.map fun pair =>
      { id := chunkId doc_id pair.1
        text := pair.2
        meta := { source_url := metadata.source_url
                  title := metadata.title
                  doc_id := doc_id
                  chunk_index := pair.1 } }
    (col ++ newEntries, chunks.length)

/-- A formatted result row of `VectorStore.query` (`text`, `metadata`,
`distance`; the float distance is abstracted to its textual payload,
never inspected by the repository). -/
structure QueryResult where
  text : String
  metadata : ChunkMeta
  distance : Option String
deriving Repr, DecidableEq

/-- Outcome of the underlying `collection.query` call plus result
formatting: a raised exception, or the formatted rows the ANN engine
produced. -/
inductive QueryOutcome where
  | fails (msg : String)
  | ok (rows : List (String × ChunkMeta × Option String))

/-- `VectorStore.query` from `chroma.py`: an empty collection returns
`[]` before querying; a failing underlying query is caught and returns
`[]`; otherwise the rows are formatted and returned. -/
def VectorStore.query (col : Collection) (query_text : String)
    (outcome : QueryOutcome) : List QueryResult :=
  if col.length = 0 then []
  else
    match outcome with
    | .fails _ => []
    | .ok rows => rows.map fun r => { text := r.1, metadata := r.2.1, distance := r.2.2 }

/-! ### Auxiliary definitions for the theorems -/

/-- Builder for concrete states in witnesses and counterexamples. -/
def sampleState (plan : List String) (idx : Int) (complete : Bool) (status : String)
    (docs : List DocumentInfo) : ResearchState :=
  { messages := []
    plan := plan
    documents := docs
    current_task_index := idx
    is_complete := complete
    status := status
    logs := []
    session_id := "s"
    original_query := "q"
    error := none }

/-- Whether a JSON value is an array (`isinstance(plan, list)`). -/
def Json.isArr : Json → Bool
  | .arr _ => true
  | _ => false

/-- `needle` occurs contiguously inside `hay`. -/
def ContainsSub (hay needle : String) : Prop :=
  ∃ pre post, hay = pre ++ needle ++ post

/-- A sample document for concrete evaluations. -/
def sampleDoc : DocumentInfo :=
  { title := "Paper One"
    summary := "A summary."
    pdf_url := "http://arxiv.org/pdf/1"
    arxiv_id := "1"
    authors := ["A"] }

/-! ### Helper lemmas -/

/-- Containment is preserved by appending on the right. -/
theorem containsSub_append_left {a n : String} (b : String) (h : ContainsSub a n) :
    ContainsSub (a ++ b) n := by
  obtain ⟨pre, post, rfl⟩ := h
  exact ⟨pre, post ++ b, by simp [String.append_assoc]⟩

/-- Containment is preserved by appending on the left. -/
theorem containsSub_append_right {b n : String} (a : String) (h : ContainsSub b n) :
    ContainsSub (a ++ b) n := by
  obtain ⟨pre, post, rfl⟩ := h
  exact ⟨a ++ pre, post, by simp [String.append_assoc]⟩

/-- A string with a nonempty left component of an append is nonempty. -/
theorem append_ne_empty_of_left_ne_empty {a : String} (b : String) (h : a ≠ "") :
    a ++ b ≠ "" := by
  intro he
  apply h
  have hl : (a ++ b).length = 0 := by rw [he]; rfl
  rw [String.length_append] at hl
  have : a.length = 0 := by omega
  cases a with
  | mk data =>
    cases data with
    | nil => rfl
    | cons c cs => simp [String.length, List.length] at this

/-- Every document's entry occurs inside the concatenated fallback
entries. -/
theorem containsSub_body_entry {docs : List DocumentInfo} {d : DocumentInfo}
    (hd : d ∈ docs) : ContainsSub (fallbackBody docs) (fallbackEntry d) := by
  induction docs with
  | nil => cases hd
  | cons x xs ih =>
    rcases List.mem_cons.mp hd with heq | hmem
    · subst heq
      exact containsSub_append_left _ ⟨"", "", by simp [fallbackBody]⟩
    · exact containsSub_append_right _ (ih hmem)

/-- The fallback entry of a document contains its title. -/
theorem fallbackEntry_contains_title (d : DocumentInfo) :
    ContainsSub (fallbackEntry d) d.title :=
  ⟨"### [", "](" ++ d.pdf_url ++ ")\n\n" ++ d.summary ++ "\n\n---\n\n",
    by simp [fallbackEntry, String.append_assoc]⟩

/-- The fallback entry of a document contains its pdf url. -/
theorem fallbackEntry_contains_url (d : DocumentInfo) :
    ContainsSub (fallbackEntry d) d.pdf_url :=
  ⟨"### [" ++ d.title ++ "](", ")\n\n" ++ d.summary ++ "\n\n---\n\n",
    by simp [fallbackEntry, String.append_assoc]⟩

/-- Containment is transitive along substrings. -/
theorem containsSub_trans {a b n : String} (hab : ContainsSub a b) (hbn : ContainsSub b n) :
    ContainsSub a n := by
  obtain ⟨p, q, rfl⟩ := hab
  obtain ⟨p2, q2, rfl⟩ := hbn
  exact ⟨p ++ p2, q2 ++ q, by simp [String.append_assoc]⟩

/-- The Router never answers `planner` on a state with a nonempty plan. -/
theorem route_ne_planner {s : ResearchState} (h : s.plan ≠ []) :
    route_next_step s ≠ "planner" := by
  unfold route_next_step
  by_cases h1 : s.is_complete
  · simp [h1]
  · by_cases h2 : s.status = "error"
    · simp [h1, h2]
    · by_cases h3 : s.current_task_index < (s.plan.length : Int)
      · simp [h1, h2, h, h3]
      · simp [h1, h2, h, h3]

/-! ### Claim theorems -/

/-- C1: the Router is a pure function of the state applying exactly the
first-match decision order: `is_complete` true → `end` (whatever the
other fields); else `status == "error"` → `end`; else empty `plan` →
`planner`; else `current_task_index < len(plan)` → `researcher`; else
`writer`. -/
theorem C1_router_first_match (s : ResearchState) :
    (s.is_complete = true → route_next_step s = "end") ∧
    (s.is_complete = false → s.status = "error" → route_next_step s = "end") ∧
    (s.is_complete = false → s.status ≠ "error" → s.plan = [] →
      route_next_step s = "planner") ∧
    (s.is_complete = false → s.status ≠ "error" → s.plan ≠ [] →
      s.current_task_index < (s.plan.length : Int) → route_next_step s = "researcher") ∧
    (s.is_complete = false → s.status ≠ "error" → s.plan ≠ [] →
      ¬s.current_task_index < (s.plan.length : Int) → route_next_step s = "writer") := by
  refine ⟨?_, ?_, ?_, ?_, ?_⟩ <;> intros <;> simp_all [route_next_step]

/-- Witness for C1 at an inconsistent concrete state: `is_complete` is
true while `status` is `error` and the index exceeds the plan; the
Router still answers `end`. -/
theorem C1_router_first_match_witness :
    route_next_step (sampleState ["q1"] 5 true "error" []) = "end" :=
  (C1_router_first_match (sampleState ["q1"] 5 true "error" [])).1 rfl

/-- C6: when the synthesis completion call raises and `documents` is
empty, the Write step returns `status == "error"`, `is_complete == true`,
the error message set, and no report appended to `messages` (the update
carries no `messages` key). -/
theorem C6_writer_error_when_no_documents (s : ResearchState) (msg : String)
    (hdocs : s.documents = []) :
    write_report s (CompletionResult.raises msg) =
      { is_complete := some true
        status := some "error"
        error := some (some ("Failed to generate report: " ++ msg))
        logs := some ["Report generation failed: " ++ msg] } := by
  simp [write_report, hdocs]

/-- Witness for C6 at a concrete documentless state. -/
theorem C6_writer_error_when_no_documents_witness :
    write_report (sampleState ["q1"] 1 false "writing" []) (CompletionResult.raises "boom") =
      { is_complete := some true
        status := some "error"
        error := some (some ("Failed to generate report: " ++ "boom"))
        logs := some ["Report generation failed: " ++ "boom"] } :=
  C6_writer_error_when_no_documents (sampleState ["q1"] 1 false "writing" []) "boom" rfl

/-- C7: with `current_task_index >= len(plan)` on entry, the Research
step short-circuits: the update sets `status` to `writing`, carries no
`current_task_index` and no `documents` key, so the merge leaves the
index and the accumulated documents unchanged. -/
theorem C7_research_short_circuit (s : ResearchState) (o : ResearchOutcome)
    (h : (s.plan.length : Int) ≤ s.current_task_index) :
    ∃ u, research_topic s o = Except.ok u ∧
      u.status = some "writing" ∧
      u.current_task_index = none ∧
      u.documents = none ∧
      (applyUpdate s u).current_task_index = s.current_task_index ∧
      (applyUpdate s u).documents = s.documents := by
  have hr : research_topic s o = Except.ok
      { status := some "writing"
        logs := some ["All research questions completed, preparing final report"] } := by
    unfold research_topic
    rw [if_pos h]
  exact ⟨_, hr, rfl, rfl, rfl, by simp [applyUpdate], by simp [applyUpdate]⟩

/-- Witness for C7: index 3 on a one-question plan. -/
theorem C7_research_short_circuit_witness :
    ∃ u, research_topic (sampleState ["q1"] 3 false "researching" [])
        (ResearchOutcome.stepRaises "down") = Except.ok u ∧
      u.status = some "writing" ∧
      u.current_task_index = none ∧
      u.documents = none ∧
      (applyUpdate (sampleState ["q1"] 3 false "researching" []) u).current_task_index
        = (sampleState ["q1"] 3 false "researching" []).current_task_index ∧
      (applyUpdate (sampleState ["q1"] 3 false "researching" []) u).documents
        = (sampleState ["q1"] 3 false "researching" []).documents :=
  C7_research_short_circuit (sampleState ["q1"] 3 false "researching" [])
    (ResearchOutcome.stepRaises "down") (by decide)

/-- C9: the vector-index query never raises to its caller: it is a total
function that returns `[]` when the collection is empty (for every query
text), and returns `[]` when the underlying query fails. -/
theorem C9_query_never_raises (col : Collection) (query_text : String) (o : QueryOutcome) :
    (col = [] → VectorStore.query col query_text o = []) ∧
    (∀ msg, o = QueryOutcome.fails msg → VectorStore.query col query_text o = []) := by
  constructor
  · intro h
    subst h
    rfl
  · intro msg h
    subst h
    by_cases hc : col.length = 0 <;> simp [VectorStore.query, hc]

/-- Witness for C9: a failing query on an empty collection returns `[]`. -/
theorem C9_query_never_raises_witness :
    VectorStore.query [] "transformers" (QueryOutcome.fails "down") = [] :=
  (C9_query_never_raises [] "transformers" (QueryOutcome.fails "down")).1 rfl

/-- A Python index in the valid range always resolves. -/
theorem pyIndex_isSome_of_valid {α : Type} (l : List α) (i : Int)
    (hlo : -(l.length : Int) ≤ i) (hhi : i < (l.length : Int)) :
    ∃ a, pyIndex l i = some a := by
  unfold pyIndex
  by_cases hneg : i < 0
  · have h0 : (0 : Int) ≤ (l.length : Int) + i := by omega
    have hlt : ((l.length : Int) + i).toNat < l.length := by omega
    simp only [hneg, if_true, h0, if_pos]
    exact ⟨_, List.get?_eq_get hlt⟩
  · have h0 : (0 : Int) ≤ i := by omega
    have hlt : i.toNat < l.length := by omega
    simp only [hneg, if_false, h0, if_pos]
    exact ⟨_, List.get?_eq_get hlt⟩

/-- Evaluation of `research_topic` when the whole pipeline raises, at a
resolvable index. -/
theorem research_topic_eval_raises {s : ResearchState} {q : String} (msg : String)
    (hnot : ¬ (s.plan.length : Int) ≤ s.current_task_index)
    (hq : pyIndex s.plan s.current_task_index = some q) :
    research_topic s (ResearchOutcome.stepRaises msg) = Except.ok
      { current_task_index := some (s.current_task_index + 1)
        status := some (if (s.plan.length : Int) ≤ s.current_task_index + 1
                        then "writing" else "researching")
        logs := some ["Error researching question: " ++ msg ++ ". Skipping to next."] } := by
  unfold research_topic
  rw [if_neg hnot, hq]

/-- Evaluation of `research_topic` on a zero-result search, at a
resolvable index. -/
theorem research_topic_eval_noresults {s : ResearchState} {q : String}
    (pp : Nat → PaperOutcome) (lw : Bool)
    (hnot : ¬ (s.plan.length : Int) ≤ s.current_task_index)
    (hq : pyIndex s.plan s.current_task_index = some q) :
    research_topic s (ResearchOutcome.search [] pp lw) = Except.ok
      { current_task_index := some (s.current_task_index + 1)
        status := some (if s.current_task_index + 1 < (s.plan.length : Int)
                        then "researching" else "writing")
        logs := some ["No papers found, moving to next question"] } := by
  unfold research_topic
  rw [if_neg hnot, hq]
  rfl

/-- Evaluation of `research_topic` on a nonempty search, at a
resolvable index. -/
theorem research_topic_eval_papers {s : ResearchState} {q : String}
    (p : Paper) (ps : List Paper) (pp : Nat → PaperOutcome) (lw : Bool)
    (hnot : ¬ (s.plan.length : Int) ≤ s.current_task_index)
    (hq : pyIndex s.plan s.current_task_index = some q) :
    research_topic s (ResearchOutcome.search (p :: ps) pp lw) = Except.ok
      { documents := some (processPapers ((p :: ps).take (if lw then 1 else 2)) pp)
        current_task_index := some (s.current_task_index + 1)
        status := some (if (s.plan.length : Int) ≤ s.current_task_index + 1
                        then "writing" else "researching")
        logs := some ["Question researched"] } := by
  unfold research_topic
  rw [if_neg hnot, hq]
  rfl

/-- C2 counterexample: the entry state with `plan = ["q1"]` and
`current_task_index = -2` satisfies the claim's hypothesis
`current_task_index < len(plan)`, yet the Research step returns no
partial update at all: the safety check `-2 >= 1` is false, and
`current_question = plan[-2]` raises an uncaught `IndexError` before
the `try` block, so no outcome branch is reached. -/
theorem C2_research_counterexample :
    research_topic (sampleState ["q1"] (-2) false "researching" [])
      (ResearchOutcome.stepRaises "down") = Except.error "list index out of range" := rfl

/-- C2 (amended): for every entry state whose index is a valid Python
index of `plan` (`-len(plan) <= current_task_index < len(plan)`; for the
nonnegative indices the system actually produces this lower bound is
vacuous), a single Research-step invocation returns a partial update
whose `current_task_index` is the entry value plus exactly 1 and whose
`status` is `writing` iff the new index is `>= len(plan)` and
`researching` otherwise — in all three outcomes — and the zero-result
and step-level-exception outcomes carry no `documents` key. -/
theorem C2_research_advances_index (s : ResearchState) (o : ResearchOutcome)
    (hlo : -(s.plan.length : Int) ≤ s.current_task_index)
    (hhi : s.current_task_index < (s.plan.length : Int)) :
    ∃ u, research_topic s o = Except.ok u ∧
      u.current_task_index = some (s.current_task_index + 1) ∧
      u.status = some (if (s.plan.length : Int) ≤ s.current_task_index + 1
                       then "writing" else "researching") ∧
      (∀ msg, o = ResearchOutcome.stepRaises msg → u.documents = none) ∧
      (∀ pp lw, o = ResearchOutcome.search [] pp lw → u.documents = none) := by
  have hnot : ¬ (s.plan.length : Int) ≤ s.current_task_index := by omega
  obtain ⟨q, hq⟩ := pyIndex_isSome_of_valid s.plan s.current_task_index hlo hhi
  have hstat : (if s.current_task_index + 1 < (s.plan.length : Int)
        then "researching" else "writing")
      = (if (s.plan.length : Int) ≤ s.current_task_index + 1
        then "writing" else "researching") := by
    by_cases h2 : s.current_task_index + 1 < (s.plan.length : Int)
    · rw [if_pos h2, if_neg (by omega)]
    · rw [if_neg h2, if_pos (by omega)]
  cases o with
  | stepRaises msg =>
    exact ⟨_, research_topic_eval_raises msg hnot hq, rfl, rfl,
      fun _ _ => rfl, fun pp lw hc => by simp at hc⟩
  | search papers pp lw =>
    cases papers with
    | nil =>
      exact ⟨_, research_topic_eval_noresults pp lw hnot hq, rfl,
        congrArg some hstat, fun _ hc => by simp at hc, fun _ _ _ => rfl⟩
    | cons p ps =>
      exact ⟨_, research_topic_eval_papers p ps pp lw hnot hq, rfl, rfl,
        fun _ hc => by simp at hc, fun pp2 lw2 hc => by simp at hc⟩

/-- Witness for the amended C2: index 0 of a two-question plan, with a
zero-result search as the outcome. -/
theorem C2_research_advances_index_witness :
    ∃ u, research_topic (sampleState ["a", "b"] 0 false "researching" [])
        (ResearchOutcome.search [] (fun _ => PaperOutcome.fails "x") false) = Except.ok u ∧
      u.current_task_index
        = some ((sampleState ["a", "b"] 0 false "researching" []).current_task_index + 1) ∧
      u.status = some
        (if ((sampleState ["a", "b"] 0 false "researching" []).plan.length : Int)
            ≤ (sampleState ["a", "b"] 0 false "researching" []).current_task_index + 1
         then "writing" else "researching") ∧
      (∀ msg, ResearchOutcome.search [] (fun _ => PaperOutcome.fails "x") false
          = ResearchOutcome.stepRaises msg → u.documents = none) ∧
      (∀ pp lw, ResearchOutcome.search [] (fun _ => PaperOutcome.fails "x") false
          = ResearchOutcome.search [] pp lw → u.documents = none) :=
  C2_research_advances_index (sampleState ["a", "b"] 0 false "researching" [])
    (ResearchOutcome.search [] (fun _ => PaperOutcome.fails "x") false)
    (by decide) (by decide)

/-- C3: every reachable state of the workflow — in particular every
state after the Plan step has run, under any sequence of Plan, Research
and Write invocations with their outputs merged — satisfies
`0 ≤ current_task_index ≤ len(plan)`: the Plan step resets the index to
0 whenever it installs a plan, and the Research step increments the
index only when `current_task_index < len(plan)` on entry. -/
theorem C3_index_within_plan (s : ResearchState) (h : Reachable s) :
    0 ≤ s.current_task_index ∧ s.current_task_index ≤ (s.plan.length : Int) := by
  induction h with
  | init sid q => simp [create_initial_state]
  | stepPlan t cr jsonLoads ht ih =>
    cases cr with
    | raises msg => simpa [applyUpdate, plan_research, plannerError] using ih
    | returns response =>
      cases hj : jsonLoads (cleanResponse response) with
      | none => simp [applyUpdate, plan_research, hj]
      | some v =>
        cases v with
        | arr items =>
          by_cases hlen : items.length < 1
          · simpa [applyUpdate, plan_research, hj, hlen, plannerError] using ih
          · simp [applyUpdate, plan_research, hj, if_neg hlen]
        | null => simpa [applyUpdate, plan_research, hj, plannerError] using ih
        | bool b => simpa [applyUpdate, plan_research, hj, plannerError] using ih
        | num lit => simpa [applyUpdate, plan_research, hj, plannerError] using ih
        | str st => simpa [applyUpdate, plan_research, hj, plannerError] using ih
        | obj fields => simpa [applyUpdate, plan_research, hj, plannerError] using ih
  | stepResearch t o u ht hok ih =>
    by_cases hge : (t.plan.length : Int) ≤ t.current_task_index
    · have hu : u =
          { status := some "writing",
            logs := some ["All research questions completed, preparing final report"] } := by
        unfold research_topic at hok
        rw [if_pos hge] at hok
        exact ((Except.ok.injEq _ _).mp hok).symm
      subst hu
      simpa [applyUpdate] using ih
    · cases hpy : pyIndex t.plan t.current_task_index with
      | none =>
        unfold research_topic at hok
        rw [if_neg hge, hpy] at hok
        simp at hok
      | some qq =>
        cases o with
        | stepRaises msg =>
          rw [research_topic_eval_raises msg hge hpy] at hok
          have hu := ((Except.ok.injEq _ _).mp hok).symm
          subst hu
          simp only [applyUpdate, Option.getD_some, Option.getD_none]
          omega
        | search papers pp lw =>
          cases papers with
          | nil =>
            rw [research_topic_eval_noresults pp lw hge hpy] at hok
            have hu := ((Except.ok.injEq _ _).mp hok).symm
            subst hu
            simp only [applyUpdate, Option.getD_some, Option.getD_none]
            omega
          | cons p ps =>
            rw [research_topic_eval_papers p ps pp lw hge hpy] at hok
            have hu := ((Except.ok.injEq _ _).mp hok).symm
            subst hu
            simp only [applyUpdate, Option.getD_some, Option.getD_none]
            omega
  | stepWrite t syn ht ih =>
    cases syn with
    | returns report => simpa [applyUpdate, write_report] using ih
    | raises msg =>
      by_cases hd : t.documents ≠ [] <;> simpa [applyUpdate, write_report, hd] using ih

/-- Witness for C3: the invariant evaluated on the state reached by
planning (with a fallback parse) from a fresh session. -/
theorem C3_index_within_plan_witness :
    0 ≤ (applyUpdate (create_initial_state "sid" "q0")
          (plan_research (create_initial_state "sid" "q0").original_query
            (CompletionResult.returns "not json") (fun _ => none))).current_task_index ∧
    (applyUpdate (create_initial_state "sid" "q0")
          (plan_research (create_initial_state "sid" "q0").original_query
            (CompletionResult.returns "not json") (fun _ => none))).current_task_index
      ≤ ((applyUpdate (create_initial_state "sid" "q0")
          (plan_research (create_initial_state "sid" "q0").original_query
            (CompletionResult.returns "not json") (fun _ => none))).plan.length : Int) :=
  C3_index_within_plan _
    (Reachable.stepPlan (create_initial_state "sid" "q0")
      (CompletionResult.returns "not json") (fun _ => none)
      (Reachable.init "sid" "q0"))

/-- C4 counterexample: a completion response that decodes to a valid but
empty JSON array.  The claim says this yields the fallback update with
`plan == [original_query]` and `status == "researching"`; the code
raises `ValueError` past the `JSONDecodeError` handler into the generic
one, returning `status == "error"` and installing no plan. -/
theorem C4_planner_counterexample :
    (plan_research "q0" (CompletionResult.returns "[]")
        (fun _ => some (Json.arr []))).status = some "error" ∧
    (plan_research "q0" (CompletionResult.returns "[]")
        (fun _ => some (Json.arr []))).plan = none :=
  ⟨rfl, rfl⟩

/-- C4 (amended): the malformed-plan fallback applies exactly to
responses whose cleaned text fails JSON decoding — those return
`plan == [original_query]`, index 0, `status == "researching"`, never an
error.  A response that decodes to an empty array or to a non-array
value raises a validation `ValueError` caught by the generic handler and
IS surfaced as `status == "error"` (with no plan installed). -/
theorem C4_parse_failure_fallback (query response : String)
    (jsonLoads : String → Option Json) :
    (jsonLoads (cleanResponse response) = none →
      plan_research query (CompletionResult.returns response) jsonLoads =
        { plan := some [query]
          current_task_index := some 0
          status := some "researching"
          logs := some ["Could not parse plan, using original query: " ++ query] }) ∧
    (jsonLoads (cleanResponse response) = some (Json.arr []) →
      plan_research query (CompletionResult.returns response) jsonLoads =
        plannerError "Plan must have at least one question") ∧
    (∀ v, jsonLoads (cleanResponse response) = some v → v.isArr = false →
      plan_research query (CompletionResult.returns response) jsonLoads =
        plannerError "Plan must be a list") := by
  refine ⟨?_, ?_, ?_⟩
  · intro h
    simp [plan_research, h]
  · intro h
    simp [plan_research, h]
  · intro v h hv
    cases v <;> simp_all [plan_research, Json.isArr]

/-- Witness for the amended C4: an undecodable response at query `q0`
takes the verbatim-query fallback. -/
theorem C4_parse_failure_fallback_witness :
    plan_research "q0" (CompletionResult.returns "oops") (fun _ => none) =
      { plan := some ["q0"]
        current_task_index := some 0
        status := some "researching"
        logs := some ["Could not parse plan, using original query: " ++ "q0"] } :=
  (C4_parse_failure_fallback "q0" "oops" (fun _ => none)).1 rfl

/-- The fixed fallback header is never the empty string. -/
theorem fallbackHeader_ne_empty (q : String) : fallbackHeader q ≠ "" := by
  unfold fallbackHeader
  apply append_ne_empty_of_left_ne_empty
  apply append_ne_empty_of_left_ne_empty
  apply append_ne_empty_of_left_ne_empty
  decide

/-- C5: if the synthesis completion call raises and `documents` is
nonempty, the Write step returns `is_complete == true`,
`status == "completed"`, `error` set to the failure reason, and the
single assistant message holds the LLM-free fallback report, which is
nonempty and contains every accumulated document's title and `pdf_url`
link. -/
theorem C5_writer_fallback_report (s : ResearchState) (msg : String)
    (hdocs : s.documents ≠ []) :
    (write_report s (CompletionResult.raises msg)).is_complete = some true ∧
    (write_report s (CompletionResult.raises msg)).status = some "completed" ∧
    (write_report s (CompletionResult.raises msg)).error
      = some (some ("Failed to generate report: " ++ msg)) ∧
    (write_report s (CompletionResult.raises msg)).messages
      = some [{ role := "assistant"
                content := fallback_report s.original_query s.documents }] ∧
    fallback_report s.original_query s.documents ≠ "" ∧
    ∀ doc ∈ s.documents,
      ContainsSub (fallback_report s.original_query s.documents) doc.title ∧
      ContainsSub (fallback_report s.original_query s.documents) doc.pdf_url := by
  refine ⟨?_, ?_, ?_, ?_, ?_, ?_⟩
  · simp [write_report, hdocs]
  · simp [write_report, hdocs]
  · simp [write_report, hdocs]
  · simp [write_report, hdocs]
  · exact append_ne_empty_of_left_ne_empty _ (fallbackHeader_ne_empty s.original_query)
  · intro doc hdoc
    constructor
    · exact containsSub_append_right _
        (containsSub_trans (containsSub_body_entry hdoc) (fallbackEntry_contains_title doc))
    · exact containsSub_append_right _
        (containsSub_trans (containsSub_body_entry hdoc) (fallbackEntry_contains_url doc))

/-- Witness for C5 at a one-document state. -/
theorem C5_writer_fallback_report_witness :
    (write_report (sampleState ["q1"] 1 false "writing" [sampleDoc])
        (CompletionResult.raises "boom")).is_complete = some true ∧
    (write_report (sampleState ["q1"] 1 false "writing" [sampleDoc])
        (CompletionResult.raises "boom")).status = some "completed" ∧
    (write_report (sampleState ["q1"] 1 false "writing" [sampleDoc])
        (CompletionResult.raises "boom")).error
      = some (some ("Failed to generate report: " ++ "boom")) ∧
    (write_report (sampleState ["q1"] 1 false "writing" [sampleDoc])
        (CompletionResult.raises "boom")).messages
      = some [{ role := "assistant"
                content := fallback_report
                  (sampleState ["q1"] 1 false "writing" [sampleDoc]).original_query
                  (sampleState ["q1"] 1 false "writing" [sampleDoc]).documents }] ∧
    fallback_report (sampleState ["q1"] 1 false "writing" [sampleDoc]).original_query
      (sampleState ["q1"] 1 false "writing" [sampleDoc]).documents ≠ "" ∧
    ∀ doc ∈ (sampleState ["q1"] 1 false "writing" [sampleDoc]).documents,
      ContainsSub (fallback_report
        (sampleState ["q1"] 1 false "writing" [sampleDoc]).original_query
        (sampleState ["q1"] 1 false "writing" [sampleDoc]).documents) doc.title ∧
      ContainsSub (fallback_report
        (sampleState ["q1"] 1 false "writing" [sampleDoc]).original_query
        (sampleState ["q1"] 1 false "writing" [sampleDoc]).documents) doc.pdf_url :=
  C5_writer_fallback_report (sampleState ["q1"] 1 false "writing" [sampleDoc]) "boom"
    (by simp [sampleState])

/-- C8: vector-index upsert is idempotent per document id: immediately
after an `add_documents` call with a nonempty chunk list for `doc_id`,
any second call for the same `doc_id` (nonempty chunks, any metadata)
returns 0 added and leaves the collection exactly unchanged. -/
theorem C8_add_documents_idempotent (col : Collection) (chunks1 chunks2 : List String)
    (md1 md2 : DocMeta) (doc_id : String)
    (h1 : chunks1 ≠ []) (h2 : chunks2 ≠ []) :
    VectorStore.add_documents (VectorStore.add_documents col chunks1 md1 doc_id).1
        chunks2 md2 doc_id
      = ((VectorStore.add_documents col chunks1 md1 doc_id).1, 0) := by
  have key : ((VectorStore.add_documents col chunks1 md1 doc_id).1).any
      (fun e => e.id = chunkId doc_id 0) = true := by
    unfold VectorStore.add_documents
    rw [if_neg h1]
    by_cases hdup : col.any (fun e => e.id = chunkId doc_id 0) = true
    · rw [if_pos hdup]
      exact hdup
    · rw [if_neg hdup]
      cases chunks1 with
      | nil => exact absurd rfl h1
      | cons c cs =>
        simp [List.any_append, List.enum_cons, List.any_cons]
  generalize (VectorStore.add_documents col chunks1 md1 doc_id).1 = col1 at key ⊢
  unfold VectorStore.add_documents
  rw [if_neg h2, if_pos key]

/-- Witness for C8: a fresh collection, two chunk lists for the same
document id. -/
theorem C8_add_documents_idempotent_witness :
    VectorStore.add_documents
        (VectorStore.add_documents [] ["alpha"] ⟨"u", "t"⟩ "2301.0001").1
        ["beta", "gamma"] ⟨"u2", "t2"⟩ "2301.0001"
      = ((VectorStore.add_documents [] ["alpha"] ⟨"u", "t"⟩ "2301.0001").1, 0) :=
  C8_add_documents_idempotent [] ["alpha"] ["beta", "gamma"] ⟨"u", "t"⟩ ⟨"u2", "t2"⟩
    "2301.0001" (by decide) (by decide)

/-- C10: every non-error Plan-step return installs a nonempty plan (the
successful parse requires at least one element and maps `str` over it;
the decode fallback installs `[original_query]`), so a state that has
absorbed such an update is never routed to `planner`. -/
theorem C10_nonerror_plan_nonempty (query : String) (cr : CompletionResult)
    (jsonLoads : String → Option Json)
    (h : (plan_research query cr jsonLoads).status ≠ some "error") :
    (∃ p, (plan_research query cr jsonLoads).plan = some p ∧ 1 ≤ p.length) ∧
    (∀ s : ResearchState,
      route_next_step (applyUpdate s (plan_research query cr jsonLoads)) ≠ "planner") := by
  cases cr with
  | raises msg => exact absurd rfl h
  | returns response =>
    cases hj : jsonLoads (cleanResponse response) with
    | none =>
      constructor
      · exact ⟨[query], by simp [plan_research, hj], by simp⟩
      · intro s
        apply route_ne_planner
        simp [applyUpdate, plan_research, hj]
    | some v =>
      cases v with
      | arr items =>
        cases items with
        | nil => simp [plan_research, hj, plannerError] at h
        | cons j js =>
          have hlen : ¬ (j :: js).length < 1 := by simp
          constructor
          · exact ⟨(j :: js).map jsonStr, by simp [plan_research, hj, hlen], by simp⟩
          · intro s
            apply route_ne_planner
            simp [applyUpdate, plan_research, hj, hlen]
      | null => simp [plan_research, hj, plannerError] at h
      | bool b => simp [plan_research, hj, plannerError] at h
      | num lit => simp [plan_research, hj, plannerError] at h
      | str st => simp [plan_research, hj, plannerError] at h
      | obj fields => simp [plan_research, hj, plannerError] at h

/-- Witness for C10: a fresh session state absorbing the decode-fallback
update is routed away from `planner`. -/
theorem C10_nonerror_plan_nonempty_witness :
    route_next_step (applyUpdate (create_initial_state "sid" "q0")
      (plan_research "q0" (CompletionResult.returns "oops") (fun _ => none))) ≠ "planner" :=
  (C10_nonerror_plan_nonempty "q0" (CompletionResult.returns "oops") (fun _ => none)
    (by decide)).2 (create_initial_state "sid" "q0")

end ScholarFlow
